import Mathlib

/-!
Verification of the cost-of-living calculator backend (`server.js`).

The file shallowly embeds the pure core of the server: the price parser
(`parsePrice`), the category classifier (the regex chain of the table-scan
loop), the table scanner (`scrapeNumbeo`'s row loop), the fallback table
(`getFallbackData`), the estimators (`estimateGroceries` and the inline
entertainment estimate), and the request handler's pure decision logic
(the `/api/cost-of-living/:city` route after the two fetches resolved).

JavaScript numbers are modelled as rationals (`ℚ`), with `parseFloat`'s
NaN outcome modelled explicitly by a dedicated constructor; JS truthiness
of numbers (`0` and `NaN` are falsy) is modelled by explicit predicates.
The two outbound fetches are external collaborators: the handler is
embedded as a pure function of their already-resolved results.
-/

/-- The set of characters matched by JavaScript's `\s` (and removed by
`String.prototype.trim`): ASCII whitespace, NBSP, the Unicode space
separators, line/paragraph separators, and the BOM. -/
def jsWhitespace (c : Char) : Bool :=
  c = ' ' || c = '\t' || c = '\n' || c = '\r' || c = '\x0b' || c = '\x0c' ||
  c = '\u00A0' || c = '\u1680' || ('\u2000' ≤ c && c ≤ '\u200A') ||
  c = '\u2028' || c = '\u2029' || c = '\u202F' || c = '\u205F' ||
  c = '\u3000' || c = '\uFEFF'

/-- JavaScript `String.prototype.trim`: strip leading and trailing
whitespace. -/
def jsTrim (s : String) : String :=
  ⟨((s.toList.dropWhile jsWhitespace).reverse.dropWhile jsWhitespace).reverse⟩

/-- JavaScript `String.prototype.toLowerCase`, restricted to its ASCII
behaviour (every string this program lowercases is compared against ASCII
patterns). -/
def jsLower (s : String) : String :=
  ⟨s.toList.map Char.toLower⟩

/-- Outcome of `parsePrice`: the JS function returns `null`, or a number,
where the number produced by `parseFloat` may be `NaN`. -/
inductive JsNum where
  | null : JsNum
  | nan : JsNum
  | num (q : ℚ) : JsNum
deriving DecidableEq

/-- JS truthiness of a `parsePrice` result: `null`, `NaN` and `0` are
falsy; every other number is truthy. -/
def JsNum.truthy : JsNum → Bool
  | .null => false
  | .nan => false
  | .num q => decide (q ≠ 0)

/-- `text.replace(/[,$]/g, '')`: remove every comma and dollar sign. -/
def stripCommaDollar (s : String) : String :=
  ⟨s.toList.filter (fun c => !(c = ',' || c = '$'))⟩

/-- A character matched by the character class `[\d.]` of the price
regex: a decimal digit or a dot. -/
def isRunChar (c : Char) : Bool :=
  c.isDigit || c = '.'

/-- The first match of `/[\d.]+/`: the first maximal contiguous run of
digits-and-dots, or `none` when no such character occurs. -/
def firstRun : List Char → Option (List Char)
  | [] => none
  | c :: rest =>
    if isRunChar c then some (c :: rest.takeWhile isRunChar)
    else firstRun rest

/-- Numeric value of a digit string (most significant first). -/
def digitsToNat (ds : List Char) : Nat :=
  ds.foldl (fun n c => 10 * n + (c.toNat - 48)) 0

/-- JavaScript `parseFloat` restricted to the strings `firstRun` can
produce (non-empty runs of digits and dots): parse leading digits, then an
optional dot followed by fractional digits; with no digit in either part
(a lone run of dots) the result is `NaN`. For example `"1.2.3"` parses as
`1.2` and `"."` as `NaN`, exactly as `parseFloat` does. The value
`int.frac` is the exact rational `(int * 10 ^ |frac| + frac) / 10 ^ |frac|`,
written with `mkRat` so that it evaluates by kernel reduction. -/
def parseFloatRun (cs : List Char) : JsNum :=
  let intPart := cs.takeWhile Char.isDigit
  let rest := cs.dropWhile Char.isDigit
  match rest with
  | '.' :: rest2 =>
    let fracPart := rest2.takeWhile Char.isDigit
    if intPart = [] ∧ fracPart = [] then .nan
    else .num (mkRat (digitsToNat intPart * 10 ^ fracPart.length + digitsToNat fracPart) (10 ^ fracPart.length))
  | _ => if intPart = [] then .nan else .num (mkRat (digitsToNat intPart) 1)

/-- `parsePrice` from `server.js`: `null` for an empty string, otherwise
remove commas and dollar signs, trim, take the first `/[\d.]+/` run and
`parseFloat` it; `null` when no run exists. -/
def parsePrice (text : String) : JsNum :=
  if text = "" then .null
  else
    match firstRun (jsTrim (stripCommaDollar text)).toList with
    | none => .null
    | some run => parseFloatRun run

/-- Multiplication of rationals, written on the numerator/denominator
representation so that it evaluates by kernel reduction; `qmul_eq` proves
it equal to ordinary multiplication on `ℚ`. Used to embed the `*` of the
JS source. -/
def qmul (a b : ℚ) : ℚ :=
  mkRat (a.num * b.num) (a.den * b.den)

/-- Division of rationals on the numerator/denominator representation;
`qdiv_eq` proves it equal to ordinary division on `ℚ`. Used to embed the
`/` of the JS source (which only ever divides by the constant 3). -/
def qdiv (a b : ℚ) : ℚ :=
  Rat.divInt (a.num * b.den) (a.den * b.num)

/-- `Math.round`: round to the nearest integer, halves towards plus
infinity, i.e. `⌊q + 1/2⌋`, written on the numerator/denominator
representation; `jsRound_eq_round` proves it equal to Mathlib's `round`. -/
def jsRound (q : ℚ) : ℤ :=
  (Rat.divInt (2 * q.num + q.den) (2 * q.den)).floor

theorem qmul_eq (a b : ℚ) : qmul a b = a * b := by
  rw [qmul, Rat.mkRat_eq_div]
  push_cast
  conv_rhs => rw [← Rat.num_div_den a, ← Rat.num_div_den b, div_mul_div_comm]

theorem qdiv_eq (a b : ℚ) : qdiv a b = a / b := by
  rcases eq_or_ne b 0 with hb | hb
  · subst hb
    simp [qdiv]
  · have hbn : (b.num : ℚ) ≠ 0 := by
      exact_mod_cast Rat.num_ne_zero.mpr hb
    have hbd : (b.den : ℚ) ≠ 0 := Nat.cast_ne_zero.mpr b.den_nz
    have had : (a.den : ℚ) ≠ 0 := Nat.cast_ne_zero.mpr a.den_nz
    rw [qdiv, Rat.divInt_eq_div]
    push_cast
    conv_rhs => rw [← Rat.num_div_den a, ← Rat.num_div_den b]
    field_simp

theorem jsRound_eq_round (q : ℚ) : jsRound q = round q := by
  have hd : (q.den : ℚ) ≠ 0 := Nat.cast_ne_zero.mpr q.den_nz
  have hfl : ∀ r : ℚ, r.floor = ⌊r⌋ := fun r => rfl
  have hval : (Rat.divInt (2 * q.num + q.den) (2 * q.den) : ℚ) = q + 1 / 2 := by
    rw [Rat.divInt_eq_div]
    push_cast
    conv_rhs => rw [← Rat.num_div_den q]
    field_simp
    ring
  rw [jsRound, hfl, hval, round_eq]

/-- A token of the compiled label regexes: every pattern the scanner uses
has the shape `lit₁.*lit₂.*…litₙ` (literal ASCII runs separated by `.*`),
so a literal character and the `.*` wildcard are the only token kinds. -/
inductive RegTok where
  | lit (c : Char) : RegTok
  | dotstar : RegTok
deriving DecidableEq

/-- A character matched by the regex metacharacter `.` without the `s`
flag: anything except a line terminator. -/
def jsDotChar (c : Char) : Bool :=
  !(c = '\n' || c = '\r' || c = '\u2028' || c = '\u2029')

/-- Fuelled worker for `matchToks`: every recursive call strictly
decreases `ts.length + ds.length`, so any fuel above that sum makes the
fuel argument irrelevant; structural recursion on the fuel keeps the
function kernel-reducible. -/
def matchToksF : Nat → List RegTok → List Char → Bool
  | 0, _, _ => false
  | _ + 1, [], _ => true
  | _ + 1, .lit _ :: _, [] => false
  | f + 1, .lit c :: ts, d :: ds => c = d && matchToksF f ts ds
  | f + 1, .dotstar :: ts, [] => matchToksF f ts []
  | f + 1, .dotstar :: ts, d :: ds =>
    matchToksF f ts (d :: ds) || (jsDotChar d && matchToksF f (.dotstar :: ts) ds)

/-- Anchored regex match: does the token list match a prefix of the
character list (with arbitrary trailing characters allowed, as in an
unanchored JS `match` once the start position is fixed)? `.*` may consume
any run of non-line-terminator characters, mirroring backtracking. -/
def matchToks (ts : List RegTok) (ds : List Char) : Bool :=
  matchToksF (ts.length + ds.length + 1) ts ds

/-- Unanchored regex search: does the token list match starting at some
position of the character list? -/
def searchToks (ts : List RegTok) : List Char → Bool
  | [] => matchToks ts []
  | d :: ds => matchToks ts (d :: ds) || searchToks ts ds

/-- The literal characters of a pattern word as regex tokens. -/
def litToks (s : String) : List RegTok :=
  s.toList.map RegTok.lit

/-- Compile a word list `[w₁, …, wₙ]` into the token list of the regex
`w₁.*w₂.*…wₙ`. -/
def compileParts : List String → List RegTok
  | [] => []
  | [p] => litToks p
  | p :: ps => litToks p ++ RegTok.dotstar :: compileParts ps

/-- `label.match(/w₁.*w₂.*…wₙ/i) !== null`: case-insensitive unanchored
search of the `.*`-separated word pattern, modelled by lowercasing the
subject (all pattern words are lowercase ASCII). -/
def reTest (label : String) (parts : List String) : Bool :=
  searchToks (compileParts parts) (jsLower label).toList

/-- `s.toLowerCase().includes(pat)` for a lowercase ASCII `pat`:
case-insensitive substring containment (a search for the pattern with no
wildcard tokens is exactly substring search). -/
def containsSubstrCI (s pat : String) : Bool :=
  searchToks (litToks pat) (jsLower s).toList

/-- The five category keys the scanner writes (`data.categories`). -/
inductive Category where
  | housingCenter | housingOutside | mealRestaurant | transportation | utilities
deriving DecidableEq

/-- The category map accumulated by the table scan: each key holds at
most one numeric value (a plain JS object field assignment). -/
structure CategoryMap where
  housingCenter : Option ℚ
  housingOutside : Option ℚ
  mealRestaurant : Option ℚ
  transportation : Option ℚ
  utilities : Option ℚ
deriving DecidableEq

/-- The empty category map (`data.categories = {}`). -/
def emptyCategories : CategoryMap :=
  ⟨none, none, none, none, none⟩

/-- Read one key of the category map. -/
def CategoryMap.get (m : CategoryMap) : Category → Option ℚ
  | .housingCenter => m.housingCenter
  | .housingOutside => m.housingOutside
  | .mealRestaurant => m.mealRestaurant
  | .transportation => m.transportation
  | .utilities => m.utilities

/-- Overwrite one key of the category map (`data.categories.k = price`). -/
def CategoryMap.set (m : CategoryMap) : Category → ℚ → CategoryMap
  | .housingCenter, p => { m with housingCenter := some p }
  | .housingOutside, p => { m with housingOutside := some p }
  | .mealRestaurant, p => { m with mealRestaurant := some p }
  | .transportation, p => { m with transportation := some p }
  | .utilities, p => { m with utilities := some p }

/-- The classifier chain of the scan loop: the five `if/else if` regex
rules, in source order, first match wins; `none` when no rule matches
(the row stays unclassified). -/
def classifyLabel (label : String) : Option Category :=
  if reTest label ["apartment", "1", "bedroom", "city", "centre"] ||
     reTest label ["rent", "1", "bed", "center"] then
    some .housingCenter
  else if reTest label ["apartment", "1", "bedroom", "outside"] ||
          reTest label ["rent", "1", "bed", "outside"] then
    some .housingOutside
  else if reTest label ["meal", "inexpensive", "restaurant"] ||
          reTest label ["meal", "cheap", "restaurant"] then
    some .mealRestaurant
  else if reTest label ["monthly", "pass"] ||
          reTest label ["public", "transport"] then
    some .transportation
  else if reTest label ["basic", "utilities"] ||
          reTest label ["electricity", "heating", "cooling"] then
    some .utilities
  else
    none

/-- JS truthiness of an optional number field (`obj.field` may be
`undefined`): `undefined`, `0` and `NaN` are falsy (`NaN` cannot occur in
a category map, whose values always pass the scan guard). -/
def truthyOpt : Option ℚ → Bool
  | none => false
  | some q => decide (q ≠ 0)

/-- The body of the scan loop for one row, up to the `if (label && price)`
guard: a row is retained when it has at least two cells, its trimmed
first-cell text is non-empty (truthy) and its trimmed second-cell text
parses to a truthy price (non-`null`, non-`NaN`, non-zero). Returns the
`{ label, price }` pair pushed onto `data.rawData`. -/
def rowEntry (row : List String) : Option (String × ℚ) :=
  match row with
  | c0 :: c1 :: _ =>
    let label := jsTrim c0
    let priceText := jsTrim c1
    match parsePrice priceText with
    | .num p => if label ≠ "" ∧ p ≠ 0 then some (label, p) else none
    | _ => none
  | _ => none

/-- Scan accumulator: `data.rawData` and `data.categories` of
`scrapeNumbeo`. -/
structure ScanAcc where
  rawData : List (String × ℚ)
  categories : CategoryMap
deriving DecidableEq

/-- One iteration of the row loop: a retained row is appended to the raw
list and, when the classifier fires, its price overwrites the matching
category key. -/
def scanStep (acc : ScanAcc) (row : List String) : ScanAcc :=
  match rowEntry row with
  | none => acc
  | some (label, price) =>
    let acc2 : ScanAcc := { acc with rawData := acc.rawData ++ [(label, price)] }
    match classifyLabel label with
    | none => acc2
    | some k => { acc2 with categories := acc2.categories.set k price }

/-- Scan a flat list of rows in document order, starting from the empty
accumulator. -/
def scanRows (rows : List (List String)) : ScanAcc :=
  rows.foldl scanStep ⟨[], emptyCategories⟩

/-- The nested `tables.each(... find('tr').each(...))` loop: scan the rows
of every candidate table, in document order. A table is its list of rows;
a row is its list of cell texts (the collaborator HTML parser supplies the
text of each `td`). -/
def scanTables (tables : List (List (List String))) : ScanAcc :=
  tables.foldl (fun acc rows => rows.foldl scanStep acc) ⟨[], emptyCategories⟩

/-- The scrape result `scrapeNumbeo` resolves with when it does not fail:
the requested city, the classified category map and the raw row list. -/
structure ScrapeData where
  city : String
  categories : CategoryMap
  rawData : List (String × ℚ)
deriving DecidableEq

/-- The pure tail of `scrapeNumbeo` once the page is fetched and parsed:
`null` when the page has no tables, `null` when no `housingCenter` was
classified and the raw list is empty, the scan result otherwise. -/
def scrapeCore (city : String) (tables : List (List (List String))) : Option ScrapeData :=
  if tables.length = 0 then none
  else
    let acc := scanTables tables
    if truthyOpt acc.categories.housingCenter = false ∧ acc.rawData = [] then none
    else some ⟨city, acc.categories, acc.rawData⟩

/-- `scrapeNumbeo` as a function of the fetch outcome: any transport
failure (timeout, non-200 status, connection error) yields `null` via the
`catch` block, otherwise the pure scan of the fetched tables runs. -/
def scrapeNumbeo (city : String) (fetched : Option (List (List (List String)))) : Option ScrapeData :=
  match fetched with
  | none => none
  | some tables => scrapeCore city tables

/-- A fallback record of `getFallbackData`: fixed five-field cost data
for one registered city. -/
structure FallbackRecord where
  housing : ℚ
  outside : ℚ
  meal : ℚ
  transport : ℚ
  utilities : ℚ
deriving DecidableEq

/-- The literal `fallbackCities` table of `server.js`, in source order
(all 20 keys are distinct, so association-list lookup coincides with JS
object property lookup). -/
def fallbackCities : List (String × FallbackRecord) :=
  [("new york", ⟨3500, 2500, 20, 127, 150⟩),
   ("newyork", ⟨3500, 2500, 20, 127, 150⟩),
   ("london", ⟨2200, 1600, 18, 165, 200⟩),
   ("tokyo", ⟨1200, 700, 10, 70, 150⟩),
   ("paris", ⟨1400, 1000, 15, 75, 180⟩),
   ("singapore", ⟨2800, 2000, 10, 100, 150⟩),
   ("mountain view", ⟨3200, 2600, 18, 100, 120⟩),
   ("mountainview", ⟨3200, 2600, 18, 100, 120⟩),
   ("mountain view, ca", ⟨3200, 2600, 18, 100, 120⟩),
   ("mountainviewca", ⟨3200, 2600, 18, 100, 120⟩),
   ("los angeles", ⟨2500, 1800, 18, 100, 140⟩),
   ("losangeles", ⟨2500, 1800, 18, 100, 140⟩),
   ("los angeles, ca", ⟨2500, 1800, 18, 100, 140⟩),
   ("la", ⟨2500, 1800, 18, 100, 140⟩),
   ("san francisco", ⟨3600, 2800, 20, 98, 130⟩),
   ("sanfrancisco", ⟨3600, 2800, 20, 98, 130⟩),
   ("seattle", ⟨2300, 1700, 17, 99, 160⟩),
   ("austin", ⟨1700, 1300, 15, 75, 150⟩),
   ("boston", ⟨2900, 2100, 18, 90, 170⟩),
   ("chicago", ⟨1900, 1400, 16, 105, 140⟩)]

/-- `city.toLowerCase().replace(/\s+/g, '').replace(/,/g, '')`: the
normalized fallback-lookup key. Replacing every maximal whitespace run by
the empty string is the same as removing every whitespace character. -/
def fallbackKey (city : String) : String :=
  ⟨((jsLower city).toList.filter (fun c => !jsWhitespace c)).filter (fun c => !(c = ','))⟩

/-- `getFallbackData` from `server.js`: exact lookup of the normalized
key in the static table, `null` on a miss. -/
def getFallbackData (city : String) : Option FallbackRecord :=
  fallbackCities.lookup (fallbackKey city)

/-- `x || d` on an optional numeric field: the field's value unless the
field is absent or holds the falsy `0`, the default otherwise. -/
def jsOr (x : Option ℚ) (d : ℚ) : ℚ :=
  match x with
  | none => d
  | some v => if v = 0 then d else v

/-- `estimateGroceries` from `server.js`: 400 when the meal price is
falsy (`undefined` or `0`), otherwise `Math.round((mealPrice * 60) / 3)`. -/
def estimateGroceries (mealPrice : Option ℚ) : ℤ :=
  match mealPrice with
  | none => 400
  | some p => if p = 0 then 400 else jsRound (qdiv (qmul p 60) 3)

/-- A Reddit discussion entry as mapped by `searchReddit`. -/
structure RedditPost where
  title : String
  subreddit : String
  url : String
  score : ℤ
  comments : ℤ
deriving DecidableEq

/-- The `housing` entry of the response: a label and the two monthly
amounts. -/
structure HousingEntry where
  label : String
  cityCenter : ℤ
  outside : ℤ
deriving DecidableEq

/-- A single-amount category entry of the response. -/
structure MonthlyEntry where
  label : String
  monthly : ℤ
deriving DecidableEq

/-- The `categories` object of the response: all five entries are
mandatory fields, mirroring the object literal of the source. -/
structure ResponseCategories where
  housing : HousingEntry
  food : MonthlyEntry
  transportation : MonthlyEntry
  utilities : MonthlyEntry
  entertainment : MonthlyEntry
deriving DecidableEq

/-- The success body of `/api/cost-of-living/:city`. -/
structure ApiResponse where
  city : String
  currency : String
  lastUpdated : String
  categories : ResponseCategories
  sources : List String
  redditDiscussions : List RedditPost
deriving DecidableEq

/-- The 404 body of `/api/cost-of-living/:city`. -/
structure NotFoundError where
  error : String
  message : String
  suggestion : String
  tip : String
deriving DecidableEq

deriving instance DecidableEq for Except

/-- The 404 response built in the handler's fallback-miss branch,
including the special suggestion for inputs containing "mountain". -/
def cityNotFound (city : String) : NotFoundError :=
  { error := "City not found"
    message := "Could not find cost of living data for \"" ++ city ++
      "\". The city might not be in Numbeo\x27s database."
    suggestion :=
      if containsSubstrCI city "mountain" then
        "Try: \"Mountain View\" without CA"
      else
        "Try major cities like: New York, Los Angeles, San Francisco, Seattle, Chicago, Boston, Austin, or international cities like London, Tokyo, Paris"
    tip := "For US cities, try without the state code (e.g., \"Los Angeles\" instead of \"Los Angeles, CA\")" }

/-- Mapping a fallback record onto the category-map shape (the
`finalData = { housingCenter: fallback.housing, … }` literal). -/
def fallbackToCategories (fb : FallbackRecord) : CategoryMap :=
  ⟨some fb.housing, some fb.outside, some fb.meal, some fb.transport, some fb.utilities⟩

/-- Lines 269–303 of `server.js`: given the established `finalData`
category map, compute the estimates and build the response object.
`numbeoNonNull` records whether `numbeoData` was non-null, because the
`sources` line tests exactly that (`numbeoData ? … : …`), not which
source supplied `finalData`. -/
def assembleResponse (city : String) (finalData : CategoryMap) (numbeoNonNull : Bool)
    (redditPosts : List RedditPost) (now : String) : ApiResponse :=
  let groceries := estimateGroceries finalData.mealRestaurant
  let entertainment := jsRound (qmul (jsOr finalData.mealRestaurant 15) 10)
  { city := city
    currency := "USD"
    lastUpdated := now
    categories :=
      { housing :=
          { label := "Housing (1-bedroom apt)"
            cityCenter := jsRound (jsOr finalData.housingCenter 1200)
            outside := jsRound (jsOr finalData.housingOutside 800) }
        food := { label := "Food & Groceries", monthly := groceries }
        transportation :=
          { label := "Transportation", monthly := jsRound (jsOr finalData.transportation 70) }
        utilities :=
          { label := "Utilities", monthly := jsRound (jsOr finalData.utilities 150) }
        entertainment := { label := "Entertainment", monthly := entertainment } }
    sources :=
      if numbeoNonNull then ["Numbeo.com (live)", "Reddit discussions"]
      else ["Estimated data", "Reddit discussions"]
    redditDiscussions := redditPosts.take 5 }

/-- The pure decision logic of the `/api/cost-of-living/:city` handler,
as a function of the two resolved fetches: use the scraped categories when
`numbeoData` is non-null and its `housingCenter` is truthy; otherwise look
the city up in the fallback table, answering 404 on a miss; then assemble
the response. -/
def handleCityRequest (city : String) (numbeoData : Option ScrapeData)
    (redditPosts : List RedditPost) (now : String) : Except NotFoundError ApiResponse :=
  match numbeoData with
  | some nd =>
    if truthyOpt nd.categories.housingCenter then
      .ok (assembleResponse city nd.categories true redditPosts now)
    else
      match getFallbackData city with
      | none => .error (cityNotFound city)
      | some fb => .ok (assembleResponse city (fallbackToCategories fb) true redditPosts now)
  | none =>
    match getFallbackData city with
    | none => .error (cityNotFound city)
    | some fb => .ok (assembleResponse city (fallbackToCategories fb) false redditPosts now)

/-- The price a row contributes to category `k`: its parsed price when
the row is retained and classifies to `k`, nothing otherwise. -/
def rowContrib (k : Category) (row : List String) : Option ℚ :=
  match rowEntry row with
  | some (label, price) => if classifyLabel label = some k then some price else none
  | none => none

/-- All prices contributed to category `k` by a row list, in document
order. -/
def contribs (rows : List (List String)) (k : Category) : List ℚ :=
  rows.filterMap (rowContrib k)

theorem CategoryMap.get_set_self (m : CategoryMap) (k : Category) (p : ℚ) :
    (m.set k p).get k = some p := by
  cases k <;> rfl

theorem CategoryMap.get_set_ne (m : CategoryMap) (k j : Category) (p : ℚ) (h : k ≠ j) :
    (m.set k p).get j = m.get j := by
  cases k <;> cases j <;> first | rfl | exact absurd rfl h

theorem scanStep_rawData (acc : ScanAcc) (row : List String) :
    (scanStep acc row).rawData = acc.rawData ++ (rowEntry row).toList := by
  unfold scanStep
  cases he : rowEntry row with
  | none => simp
  | some e =>
    obtain ⟨l, p⟩ := e
    cases hcl : classifyLabel l <;> simp [hcl]

theorem scanStep_get (acc : ScanAcc) (row : List String) (k : Category) :
    (scanStep acc row).categories.get k =
      match rowContrib k row with
      | some p => some p
      | none => acc.categories.get k := by
  unfold scanStep rowContrib
  cases he : rowEntry row with
  | none => simp
  | some e =>
    obtain ⟨l, p⟩ := e
    cases hcl : classifyLabel l with
    | none => simp [hcl]
    | some j =>
      simp only [hcl]
      by_cases hj : j = k
      · subst hj
        simp [CategoryMap.get_set_self]
      · rw [if_neg (by simpa using hj)]
        simpa using CategoryMap.get_set_ne acc.categories j k p hj

theorem scanFold_rawData (rows : List (List String)) (acc : ScanAcc) :
    (rows.foldl scanStep acc).rawData = acc.rawData ++ rows.filterMap rowEntry := by
  induction rows generalizing acc with
  | nil => simp
  | cons row rows ih =>
    rw [List.foldl_cons, ih, scanStep_rawData]
    cases he : rowEntry row <;> simp [he]

theorem scanFold_get (rows : List (List String)) (acc : ScanAcc) (k : Category) :
    (rows.foldl scanStep acc).categories.get k =
      match (contribs rows k).getLast? with
      | some p => some p
      | none => acc.categories.get k := by
  induction rows using List.reverseRecOn with
  | nil => simp [contribs]
  | append_singleton rows row ih =>
    rw [List.foldl_append, List.foldl_cons, List.foldl_nil, scanStep_get]
    cases hc : rowContrib k row with
    | some p =>
      have hcon : contribs (rows ++ [row]) k = contribs rows k ++ [p] := by
        simp [contribs, List.filterMap_append, hc]
      rw [hcon, List.getLast?_concat]
    | none =>
      have hcon : contribs (rows ++ [row]) k = contribs rows k := by
        simp [contribs, List.filterMap_append, hc]
      rw [hcon, ih]

/-- Claim C8: within a single scan pass, the category map's final value
for a key is the price of the last retained row (in document order) that
classifies to that key — `getLast?` of the key's contribution list — and
the `Option`-valued map holds at most one value per key. Last-match-wins
follows: with two contributing rows, the later one's price stands. -/
theorem category_map_last_match_wins (rows : List (List String)) (k : Category) :
    (scanRows rows).categories.get k = (contribs rows k).getLast? := by
  rw [scanRows, scanFold_get]
  cases h : (contribs rows k).getLast? with
  | some p => rfl
  | none => cases k <;> rfl

/-- Claim C3, amended: a row with at least two cells, a non-empty trimmed
label and a price that parses to a truthy value (non-zero, non-NaN) is
appended to the raw list, even when unclassified. (The claim's inclusion
of price 0 fails, see the counterexample: the `label && price` guard
drops a parsed price of 0.) -/
theorem raw_list_retains_truthy_priced_rows (rows : List (List String))
    (c0 c1 : String) (rest : List String) (p : ℚ)
    (hmem : (c0 :: c1 :: rest) ∈ rows) (hlabel : jsTrim c0 ≠ "")
    (hprice : parsePrice (jsTrim c1) = JsNum.num p) (hp : p ≠ 0) :
    (jsTrim c0, p) ∈ (scanRows rows).rawData := by
  have hre : rowEntry (c0 :: c1 :: rest) = some (jsTrim c0, p) := by
    unfold rowEntry
    simp [hprice, hlabel, hp]
  rw [scanRows, scanFold_rawData]
  simpa using List.mem_filterMap.mpr ⟨_, hmem, hre⟩

theorem raw_list_retains_truthy_priced_rows_witness :
    jsTrim "  Meal, Inexpensive Restaurant " ≠ "" ∧
    parsePrice (jsTrim " $12.50 ") = JsNum.num (mkRat 25 2) ∧
    (mkRat 25 2 : ℚ) ≠ 0 ∧
    (jsTrim "  Meal, Inexpensive Restaurant ", (mkRat 25 2 : ℚ)) ∈
      (scanRows [["  Meal, Inexpensive Restaurant ", " $12.50 "]]).rawData :=
  ⟨by decide, by decide, by decide,
    raw_list_retains_truthy_priced_rows [["  Meal, Inexpensive Restaurant ", " $12.50 "]]
      "  Meal, Inexpensive Restaurant " " $12.50 " [] (mkRat 25 2)
      (by decide) (by decide) (by decide) (by decide)⟩

/-- Claim C3 counterexample: the row `["Rent", "0"]` has the non-empty
label "Rent" and its second cell parses successfully to the price 0, yet
the scan's raw list stays empty — the claim says the pair is appended. -/
theorem raw_list_zero_price_row_dropped_cex :
    jsTrim "Rent" ≠ "" ∧ parsePrice (jsTrim "0") = JsNum.num 0 ∧
    (scanRows [["Rent", "0"]]).rawData = [] := by
  exact ⟨by decide, by decide, by decide⟩

/-- Claim C4 counterexample: on the input `"."` the regex `/[\d.]+/`
does match (the run `"."`), `parseFloat` yields `NaN`, and `parsePrice`
returns that `NaN` — not the `null` "no value" result the claim states. -/
theorem lone_dot_not_no_value_cex :
    parsePrice "." = JsNum.nan ∧ JsNum.nan ≠ JsNum.null := by
  exact ⟨by decide, by decide⟩

/-- Claim C4, amended: `parsePrice "."` returns `NaN` — not the `null`
no-value sentinel, but also not a usable numeric value: its truthiness is
false, so the scanner's `label && price` guard treats it exactly like no
value (in particular `"."` never parses as 0). -/
theorem lone_dot_parses_to_nan :
    parsePrice "." = JsNum.nan ∧ (parsePrice ".").truthy = false ∧
    parsePrice "." ≠ JsNum.num 0 := by
  exact ⟨by decide, by decide, by decide⟩

/-- Claim C1 (code-bug evidence): the fallback key of "Los Angeles, CA"
is "losangelesca" (lowercased, whitespace and commas stripped), which is
not a key of the shipped table, so the lookup misses — even though the
table registers the raw key "los angeles, ca", which still contains a
space and a comma and is therefore unreachable under the normalizer.
"Los Angeles" resolves as the claim states. -/
theorem losangeles_ca_fallback_key_unreachable :
    fallbackKey "Los Angeles, CA" = "losangelesca" ∧
    getFallbackData "Los Angeles, CA" = none ∧
    getFallbackData "Los Angeles" = some ⟨2500, 1800, 18, 100, 140⟩ ∧
    fallbackCities.lookup "los angeles, ca" = some ⟨2500, 1800, 18, 100, 140⟩ := by
  exact ⟨by decide, by decide, by decide, by decide⟩

/-- Claim C5 counterexample: the label "Restaurant meal, inexpensive"
contains "meal", "inexpensive" and "restaurant" as case-insensitive
substrings and matches no housing rule, yet the classifier leaves it
unclassified — the rule requires the keywords in regex order, not mere
containment. -/
theorem meal_rule_requires_order_cex :
    containsSubstrCI "Restaurant meal, inexpensive" "meal" = true ∧
    containsSubstrCI "Restaurant meal, inexpensive" "inexpensive" = true ∧
    containsSubstrCI "Restaurant meal, inexpensive" "restaurant" = true ∧
    classifyLabel "Restaurant meal, inexpensive" = none := by
  exact ⟨by decide, by decide, by decide, by decide⟩

/-- Claim C5, amended: a label matching `/meal.*inexpensive.*restaurant/i`
or `/meal.*cheap.*restaurant/i` (the keywords in this order, with gaps
free of line terminators) that matches neither housing rule classifies as
`mealRestaurant`. -/
theorem meal_rule_ordered_keywords (label : String)
    (h1 : reTest label ["apartment", "1", "bedroom", "city", "centre"] = false)
    (h2 : reTest label ["rent", "1", "bed", "center"] = false)
    (h3 : reTest label ["apartment", "1", "bedroom", "outside"] = false)
    (h4 : reTest label ["rent", "1", "bed", "outside"] = false)
    (h5 : reTest label ["meal", "inexpensive", "restaurant"] = true ∨
          reTest label ["meal", "cheap", "restaurant"] = true) :
    classifyLabel label = some Category.mealRestaurant := by
  unfold classifyLabel
  rcases h5 with h5 | h5 <;> simp [h1, h2, h3, h4, h5]

theorem meal_rule_ordered_keywords_witness :
    reTest "Meal, Inexpensive Restaurant" ["meal", "inexpensive", "restaurant"] = true ∧
    classifyLabel "Meal, Inexpensive Restaurant" = some Category.mealRestaurant :=
  ⟨by decide,
    meal_rule_ordered_keywords "Meal, Inexpensive Restaurant"
      (by decide) (by decide) (by decide) (by decide) (Or.inl (by decide))⟩

/-- The handler's test for a usable scrape
(`numbeoData && numbeoData.categories.housingCenter`): the scrape
resolved non-null and its `housingCenter` is truthy. -/
def scrapeUsable : Option ScrapeData → Bool
  | none => false
  | some nd => truthyOpt nd.categories.housingCenter

theorem jsOr_some_zero (d : ℚ) : jsOr (some 0) d = d := by
  simp [jsOr]

theorem jsOr_none (d : ℚ) : jsOr none d = d := rfl

theorem estimateGroceries_some_zero : estimateGroceries (some 0) = 400 := by
  simp [estimateGroceries]

theorem estimateGroceries_none : estimateGroceries none = 400 := rfl

/-- Every success of the handler is an `assembleResponse` whose
`numbeoNonNull` flag is exactly `numbeoData.isSome`. -/
theorem handle_ok_shape (city : String) (nd : Option ScrapeData)
    (posts : List RedditPost) (now : String) (r : ApiResponse)
    (h : handleCityRequest city nd posts now = Except.ok r) :
    ∃ fd, r = assembleResponse city fd nd.isSome posts now := by
  cases nd with
  | none =>
    simp only [handleCityRequest] at h
    cases hfb : getFallbackData city with
    | none => simp [hfb] at h
    | some fb =>
      simp only [hfb] at h
      injection h with h2
      exact ⟨_, h2.symm⟩
  | some nd2 =>
    simp only [handleCityRequest] at h
    by_cases ht : truthyOpt nd2.categories.housingCenter
    · rw [if_pos ht] at h
      injection h with h2
      exact ⟨_, h2.symm⟩
    · rw [if_neg ht] at h
      cases hfb : getFallbackData city with
      | none => simp [hfb] at h
      | some fb =>
        simp only [hfb] at h
        injection h with h2
        exact ⟨_, h2.symm⟩

/-- Claim C2, amended: for every successful request the sources are
marked "Numbeo.com (live)" exactly when the scrape resolved non-null —
even when its category map was unusable and the FallbackTable record
actually supplied the numbers — and "Estimated data" exactly when the
scrape resolved null. The attribution tests `numbeoData`'s nullness, not
which source fed `finalData`. -/
theorem sources_live_iff_scrape_nonnull (city : String) (nd : Option ScrapeData)
    (posts : List RedditPost) (now : String) (r : ApiResponse)
    (h : handleCityRequest city nd posts now = Except.ok r) :
    (r.sources = ["Numbeo.com (live)", "Reddit discussions"] ↔ nd.isSome = true) ∧
    (r.sources = ["Estimated data", "Reddit discussions"] ↔ nd.isSome = false) := by
  obtain ⟨fd, rfl⟩ := handle_ok_shape city nd posts now r h
  have hs : ∀ b, (assembleResponse city fd b posts now).sources =
      if b then ["Numbeo.com (live)", "Reddit discussions"]
      else ["Estimated data", "Reddit discussions"] := fun b => rfl
  have hne : (["Numbeo.com (live)", "Reddit discussions"] : List String) ≠
      ["Estimated data", "Reddit discussions"] := by decide
  cases hnd : nd.isSome
  · exact ⟨by rw [hs]; simp [hne.symm], by rw [hs]; simp⟩
  · exact ⟨by rw [hs]; simp, by rw [hs]; simp [hne]⟩

theorem sources_live_iff_scrape_nonnull_witness :
    ((assembleResponse "tokyo" (fallbackToCategories ⟨1200, 700, 10, 70, 150⟩) false [] "x").sources
        = ["Numbeo.com (live)", "Reddit discussions"] ↔ (none : Option ScrapeData).isSome = true) ∧
    ((assembleResponse "tokyo" (fallbackToCategories ⟨1200, 700, 10, 70, 150⟩) false [] "x").sources
        = ["Estimated data", "Reddit discussions"] ↔ (none : Option ScrapeData).isSome = false) :=
  sources_live_iff_scrape_nonnull "tokyo" none [] "x" _ (by decide)

/-- Claim C2 counterexample: the scrape of "new york" returns rows but no
`housingCenter` (so the fallback record supplies every number: city
centre 3500 is the fallback's figure, not a scraped one), yet the sources
read "Numbeo.com (live)", not "Estimated data". -/
theorem sources_live_despite_fallback_cex :
    (⟨"new york", emptyCategories, [("Gasoline (1 liter)", 1)]⟩ : ScrapeData).categories.housingCenter
        = none ∧
    handleCityRequest "new york"
        (some ⟨"new york", emptyCategories, [("Gasoline (1 liter)", 1)]⟩) [] "d"
      = .ok (assembleResponse "new york" (fallbackToCategories ⟨3500, 2500, 20, 127, 150⟩) true [] "d") ∧
    (assembleResponse "new york" (fallbackToCategories ⟨3500, 2500, 20, 127, 150⟩) true [] "d").sources
      = ["Numbeo.com (live)", "Reddit discussions"] ∧
    (assembleResponse "new york" (fallbackToCategories ⟨3500, 2500, 20, 127, 150⟩) true [] "d").categories.housing.cityCenter
      = 3500 := by
  exact ⟨by decide, by decide, by decide, by decide⟩

/-- Claim C6: with a known non-zero meal price `m` the food estimate is
`round (m * 60 / 3)` and the entertainment estimate `round (m * 10)`;
with no meal price they are 400 and `round (15 * 10) = 150`. -/
theorem estimator_formulas (city : String) (b : Bool) (posts : List RedditPost)
    (now : String) (cm : CategoryMap) (m : ℚ) :
    (cm.mealRestaurant = some m → m ≠ 0 →
      (assembleResponse city cm b posts now).categories.food.monthly = round (m * 60 / 3) ∧
      (assembleResponse city cm b posts now).categories.entertainment.monthly = round (m * 10)) ∧
    (cm.mealRestaurant = none →
      (assembleResponse city cm b posts now).categories.food.monthly = 400 ∧
      (assembleResponse city cm b posts now).categories.entertainment.monthly = 150) := by
  constructor
  · intro hm hm0
    constructor
    · simp only [assembleResponse, estimateGroceries, hm, if_neg hm0]
      rw [qmul_eq, qdiv_eq, jsRound_eq_round]
    · simp only [assembleResponse, jsOr, hm, if_neg hm0]
      rw [qmul_eq, jsRound_eq_round]
  · intro hm
    constructor
    · simp only [assembleResponse, estimateGroceries, hm]
    · simp only [assembleResponse, jsOr, hm]
      decide

theorem estimator_formulas_witness :
    ((⟨none, none, some 18, none, none⟩ : CategoryMap).mealRestaurant = some 18) ∧
    ((18 : ℚ) ≠ 0) ∧
    ((assembleResponse "x" ⟨none, none, some 18, none, none⟩ false [] "").categories.food.monthly
        = round ((18 : ℚ) * 60 / 3)) ∧
    ((assembleResponse "x" ⟨none, none, some 18, none, none⟩ false [] "").categories.entertainment.monthly
        = round ((18 : ℚ) * 10)) ∧
    ((assembleResponse "x" emptyCategories false [] "").categories.food.monthly = 400) ∧
    ((assembleResponse "x" emptyCategories false [] "").categories.entertainment.monthly = 150) := by
  refine ⟨rfl, by norm_num, ?_, ?_, ?_, ?_⟩
  · exact ((estimator_formulas "x" false [] "" ⟨none, none, some 18, none, none⟩ 18).1 rfl (by norm_num)).1
  · exact ((estimator_formulas "x" false [] "" ⟨none, none, some 18, none, none⟩ 18).1 rfl (by norm_num)).2
  · exact ((estimator_formulas "x" false [] "" emptyCategories 18).2 rfl).1
  · exact ((estimator_formulas "x" false [] "" emptyCategories 18).2 rfl).2

/-- Claim C7: every request that does not end in the not-found error
returns a response whose `categories` object carries all five entries —
housing with both amounts, food, transportation, utilities and
entertainment, each with its display label and an integer monthly amount;
the object literal of the source leaves no entry unset. -/
theorem response_categories_all_populated (city : String) (nd : Option ScrapeData)
    (posts : List RedditPost) (now : String) (r : ApiResponse)
    (h : handleCityRequest city nd posts now = Except.ok r) :
    ∃ hc ho g t u e : ℤ,
      r.categories =
        { housing := ⟨"Housing (1-bedroom apt)", hc, ho⟩
          food := ⟨"Food & Groceries", g⟩
          transportation := ⟨"Transportation", t⟩
          utilities := ⟨"Utilities", u⟩
          entertainment := ⟨"Entertainment", e⟩ } := by
  obtain ⟨fd, rfl⟩ := handle_ok_shape city nd posts now r h
  exact ⟨_, _, _, _, _, _, rfl⟩

theorem response_categories_all_populated_witness :
    handleCityRequest "tokyo" none [] "x"
        = Except.ok (assembleResponse "tokyo" (fallbackToCategories ⟨1200, 700, 10, 70, 150⟩) false [] "x") ∧
    ∃ hc ho g t u e : ℤ,
      (assembleResponse "tokyo" (fallbackToCategories ⟨1200, 700, 10, 70, 150⟩) false [] "x").categories =
        { housing := ⟨"Housing (1-bedroom apt)", hc, ho⟩
          food := ⟨"Food & Groceries", g⟩
          transportation := ⟨"Transportation", t⟩
          utilities := ⟨"Utilities", u⟩
          entertainment := ⟨"Entertainment", e⟩ } :=
  ⟨by decide, response_categories_all_populated "tokyo" none [] "x" _ (by decide)⟩

/-- Claim C9: when the scrape yields no usable data and the fallback key
is unregistered, the handler answers the structured 404 and no result
body: the error carries the fixed non-empty tip, a non-empty suggestion,
and the suggestion is the drop-the-state-suffix hint exactly when the
lowercased input contains "mountain" (otherwise the generic city list). -/
theorem not_found_structured_error (city : String) (nd : Option ScrapeData)
    (posts : List RedditPost) (now : String)
    (hscrape : scrapeUsable nd = false) (hfb : getFallbackData city = none) :
    handleCityRequest city nd posts now = Except.error (cityNotFound city) ∧
    (cityNotFound city).suggestion ≠ "" ∧
    (cityNotFound city).tip ≠ "" ∧
    ((cityNotFound city).suggestion = "Try: \"Mountain View\" without CA" ↔
      containsSubstrCI city "mountain" = true) := by
  have hgen : ("Try major cities like: New York, Los Angeles, San Francisco, Seattle, Chicago, Boston, Austin, or international cities like London, Tokyo, Paris" : String)
      ≠ "Try: \"Mountain View\" without CA" := by decide
  refine ⟨?_, ?_, ?_, ?_⟩
  · cases nd with
    | none => simp [handleCityRequest, hfb]
    | some nd2 =>
      have ht : truthyOpt nd2.categories.housingCenter = false := by
        simpa [scrapeUsable] using hscrape
      simp [handleCityRequest, ht, hfb]
  · simp only [cityNotFound]
    by_cases hm : containsSubstrCI city "mountain" = true
    · rw [if_pos hm]
      decide
    · rw [if_neg hm]
      decide
  · simp only [cityNotFound]
    decide
  · simp only [cityNotFound]
    by_cases hm : containsSubstrCI city "mountain" = true
    · rw [if_pos hm]
      simp [hm]
    · rw [if_neg hm]
      simp [hm, hgen]

theorem not_found_structured_error_witness :
    scrapeUsable none = false ∧
    getFallbackData "Nowhereville" = none ∧
    handleCityRequest "Nowhereville" none [] "d" = Except.error (cityNotFound "Nowhereville") ∧
    (cityNotFound "Nowhereville").suggestion ≠ "" ∧
    (cityNotFound "Nowhereville").tip ≠ "" ∧
    ((cityNotFound "Nowhereville").suggestion = "Try: \"Mountain View\" without CA" ↔
      containsSubstrCI "Nowhereville" "mountain" = true) := by
  have h := not_found_structured_error "Nowhereville" none [] "d" rfl (by decide)
  exact ⟨rfl, by decide, h.1, h.2.1, h.2.2.1, h.2.2.2⟩

/-- Claim C10: the assembler treats a category value of 0 exactly like a
missing value — replacing 0 by absence leaves the whole response
unchanged — and the per-field defaults apply: city centre 1200, outside
800, transportation 70, utilities 150; a meal price of 0 yields groceries
400 and entertainment 150. -/
theorem zero_values_treated_as_missing (city : String) (b : Bool)
    (posts : List RedditPost) (now : String) (cm : CategoryMap) :
    (assembleResponse city { cm with housingCenter := some 0 } b posts now =
      assembleResponse city { cm with housingCenter := none } b posts now) ∧
    (assembleResponse city { cm with housingOutside := some 0 } b posts now =
      assembleResponse city { cm with housingOutside := none } b posts now) ∧
    (assembleResponse city { cm with transportation := some 0 } b posts now =
      assembleResponse city { cm with transportation := none } b posts now) ∧
    (assembleResponse city { cm with utilities := some 0 } b posts now =
      assembleResponse city { cm with utilities := none } b posts now) ∧
    (assembleResponse city { cm with mealRestaurant := some 0 } b posts now =
      assembleResponse city { cm with mealRestaurant := none } b posts now) ∧
    (assembleResponse city { cm with housingCenter := some 0 } b posts now).categories.housing.cityCenter = 1200 ∧
    (assembleResponse city { cm with housingOutside := some 0 } b posts now).categories.housing.outside = 800 ∧
    (assembleResponse city { cm with transportation := some 0 } b posts now).categories.transportation.monthly = 70 ∧
    (assembleResponse city { cm with utilities := some 0 } b posts now).categories.utilities.monthly = 150 ∧
    (assembleResponse city { cm with mealRestaurant := some 0 } b posts now).categories.food.monthly = 400 ∧
    (assembleResponse city { cm with mealRestaurant := some 0 } b posts now).categories.entertainment.monthly = 150 := by
  have h1200 : jsRound (1200 : ℚ) = 1200 := by decide
  have h800 : jsRound (800 : ℚ) = 800 := by decide
  have h70 : jsRound (70 : ℚ) = 70 := by decide
  have h150 : jsRound (150 : ℚ) = 150 := by decide
  have hent : jsRound (qmul (15 : ℚ) 10) = 150 := by decide
  refine ⟨?_, ?_, ?_, ?_, ?_, ?_, ?_, ?_, ?_, ?_, ?_⟩ <;>
    simp [assembleResponse, jsOr_some_zero, jsOr_none, estimateGroceries_some_zero,
      estimateGroceries_none, h1200, h800, h70, h150, hent]
